import Mathlib

/-!
Verification of the solar power plant financial model
(src/solar_financial_model.py) against its specification.

The script computes, from a flat set of scalar inputs, a year-by-year
cash-flow projection (energy with degradation, O&M with escalation, flat
depreciation, tax on clamped EBIT, annuity loan amortization) and summary
metrics (WACC, LCOE, payback year).  We embed the computation shallowly:
the Python floats become exact rationals, the per-year loop becomes
structural recursion on the year index, and the per-year lists become
`List.range`-maps.  Python's raising float division (ZeroDivisionError)
is modelled where it matters by `pydiv`, an `Option`-valued division.

All definitions are transcribed from the source; numbers, guards and
branch conditions follow the Python line by line.
-/

/-- The sidebar inputs of the model, one field per Python input variable
(percent inputs are already divided by 100, exactly as the script does at
the `st.sidebar.number_input(...)/100` call sites).  Integer-valued inputs
(`project_life` from a slider, `loan_tenure`) are naturals. -/
structure Inputs where
  plant_capacity_mw : ℚ
  dc_overload_factor : ℚ
  cuf : ℚ
  project_life : ℕ
  degradation : ℚ
  capital_cost_per_mw : ℚ
  subsidy_amount_per_mw : ℚ
  tariff : ℚ
  om_cost_per_mw : ℚ
  om_escalation : ℚ
  loan_percent : ℚ
  loan_interest_rate : ℚ
  loan_tenure : ℕ
  depreciation_rate : ℚ
  tax_rate : ℚ
  return_on_equity : ℚ
  deriving DecidableEq, Repr

/-- Line 57: `base_capital_cost = capital_cost_per_mw * plant_capacity_mw`. -/
def base_capital_cost (inp : Inputs) : ℚ :=
  inp.capital_cost_per_mw * inp.plant_capacity_mw

/-- Line 58: `capital_cost = base_capital_cost * dc_overload_factor`. -/
def capital_cost (inp : Inputs) : ℚ :=
  base_capital_cost inp * inp.dc_overload_factor

/-- Line 61: `subsidy_amount = subsidy_amount_per_mw * plant_capacity_mw`. -/
def subsidy_amount (inp : Inputs) : ℚ :=
  inp.subsidy_amount_per_mw * inp.plant_capacity_mw

/-- Line 64: `effective_capital_cost = capital_cost - subsidy_amount`. -/
def effective_capital_cost (inp : Inputs) : ℚ :=
  capital_cost inp - subsidy_amount inp

/-- Line 67: `loan_amount = effective_capital_cost * (loan_percent / 100)`. -/
def loan_amount (inp : Inputs) : ℚ :=
  effective_capital_cost inp * (inp.loan_percent / 100)

/-- Line 68: `equity_amount = effective_capital_cost - loan_amount`. -/
def equity_amount (inp : Inputs) : ℚ :=
  effective_capital_cost inp - loan_amount inp

/-- Lines 73-74: the WACC formula, transcribed with Lean's total division
on ℚ (`x / 0 = 0`).  `cost_of_debt = loan_interest_rate` and
`cost_of_equity = return_on_equity` (lines 71-72) are inlined. -/
def wacc (inp : Inputs) : ℚ :=
  (loan_amount inp / effective_capital_cost inp) * inp.loan_interest_rate *
      (1 - inp.tax_rate) +
    (equity_amount inp / effective_capital_cost inp) * inp.return_on_equity

/-- Python float division: raises ZeroDivisionError on a zero denominator,
modelled as `none`. -/
def pydiv (a b : ℚ) : Option ℚ :=
  if b = 0 then none else some (a / b)

/-- Lines 73-74 again, but with the raising semantics of Python's `/`:
when `effective_capital_cost = 0` the script dies with an unhandled
ZeroDivisionError, so the value is `none`. -/
def waccChecked (inp : Inputs) : Option ℚ :=
  match pydiv (loan_amount inp) (effective_capital_cost inp),
      pydiv (equity_amount inp) (effective_capital_cost inp) with
  | some d, some e =>
      some (d * inp.loan_interest_rate * (1 - inp.tax_rate) +
        e * inp.return_on_equity)
  | _, _ => none

/-- Line 77: `energy_y1_kwh = plant_capacity_mw * 1000 * 8760 * cuf * dc_overload_factor`. -/
def energy_y1_kwh (inp : Inputs) : ℚ :=
  inp.plant_capacity_mw * 1000 * 8760 * inp.cuf * inp.dc_overload_factor

/-- Line 78: `om_cost_year1 = om_cost_per_mw * plant_capacity_mw`. -/
def om_cost_year1 (inp : Inputs) : ℚ :=
  inp.om_cost_per_mw * inp.plant_capacity_mw

/-- Lines 81-85: the annual annuity payment; 0 unless
`loan_tenure > 0 and loan_interest_rate > 0`. -/
def annual_payment (inp : Inputs) : ℚ :=
  if 0 < inp.loan_tenure ∧ 0 < inp.loan_interest_rate then
    loan_amount inp *
      ((inp.loan_interest_rate * (1 + inp.loan_interest_rate) ^ inp.loan_tenure) /
        ((1 + inp.loan_interest_rate) ^ inp.loan_tenure - 1))
  else 0

/-- Line 97: the energy generated in a given year (year = 1, 2, ...). -/
def energy (inp : Inputs) (year : ℕ) : ℚ :=
  energy_y1_kwh inp * (1 - inp.degradation) ^ (year - 1)

/-- Line 98: the O&M cost of a given year. -/
def om_cost (inp : Inputs) (year : ℕ) : ℚ :=
  om_cost_year1 inp * (1 + inp.om_escalation) ^ (year - 1)

/-- Line 99: `revenue = energy * tariff`. -/
def revenue (inp : Inputs) (year : ℕ) : ℚ :=
  energy inp year * inp.tariff

/-- Line 100: flat depreciation, the same in every year. -/
def depreciation (inp : Inputs) : ℚ :=
  effective_capital_cost inp * inp.depreciation_rate

/-- Line 101: `ebitda = revenue - om_cost`. -/
def ebitda (inp : Inputs) (year : ℕ) : ℚ :=
  revenue inp year - om_cost inp year

/-- Line 102: `ebit = ebitda - depreciation`. -/
def ebit (inp : Inputs) (year : ℕ) : ℚ :=
  ebitda inp year - depreciation inp

/-- Line 103: `tax = tax_rate * max(ebit, 0)`. -/
def tax (inp : Inputs) (year : ℕ) : ℚ :=
  inp.tax_rate * max (ebit inp year) 0

/-- Line 104: `project_cf = ebitda - tax` (the year ≥ 1 entries). -/
def project_cf (inp : Inputs) (year : ℕ) : ℚ :=
  ebitda inp year - tax inp year

/-- Lines 92 and 106-112: the loan balance at the end of each year.
`remaining_loan inp k` is the value of the Python variable
`remaining_loan` after the loop iteration `year = k` (for `k = 0`, its
initial value `loan_amount`).  The payment of year `k+1` happens only
when `k+1 ≤ loan_tenure` and the balance is still positive. -/
def remaining_loan (inp : Inputs) : ℕ → ℚ
  | 0 => loan_amount inp
  | year + 1 =>
    let bal := remaining_loan inp year
    if year + 1 ≤ inp.loan_tenure ∧ 0 < bal then
      bal - (annual_payment inp - bal * inp.loan_interest_rate)
    else bal

/-- Lines 106-111: the interest paid in a given year (year = 1, 2, ...). -/
def interest (inp : Inputs) (year : ℕ) : ℚ :=
  if year ≤ inp.loan_tenure ∧ 0 < remaining_loan inp (year - 1) then
    remaining_loan inp (year - 1) * inp.loan_interest_rate
  else 0

/-- Lines 106-112: the principal repaid in a given year. -/
def principal (inp : Inputs) (year : ℕ) : ℚ :=
  if year ≤ inp.loan_tenure ∧ 0 < remaining_loan inp (year - 1) then
    annual_payment inp - remaining_loan inp (year - 1) * inp.loan_interest_rate
  else 0

/-- Line 116: `equity_cf = project_cf - interest - principal` (year ≥ 1). -/
def equity_cf (inp : Inputs) (year : ℕ) : ℚ :=
  project_cf inp year - interest inp year - principal inp year

/-- Lines 88, 96-118: the list `project_cf_list`, year-0 entry
`-effective_capital_cost` followed by the per-year project cash flows. -/
def project_cf_list (inp : Inputs) : List ℚ :=
  -effective_capital_cost inp ::
    (List.range inp.project_life).map (fun i => project_cf inp (i + 1))

/-- Lines 89, 96-119: the list `equity_cf_list`, year-0 entry
`-equity_amount` followed by the per-year equity cash flows. -/
def equity_cf_list (inp : Inputs) : List ℚ :=
  -equity_amount inp ::
    (List.range inp.project_life).map (fun i => equity_cf inp (i + 1))

/-- Lines 90, 121: the list `energy_outputs` of the years 1..project_life. -/
def energy_outputs (inp : Inputs) : List ℚ :=
  (List.range inp.project_life).map (fun i => energy inp (i + 1))

/-- Line 136: `total_energy = sum(energy_outputs)`. -/
def total_energy (inp : Inputs) : ℚ :=
  (energy_outputs inp).sum

/-- Lines 139-141: the nominal LCOE, `None` unless the total energy is
positive. -/
def lcoe (inp : Inputs) : Option ℚ :=
  if 0 < total_energy inp then
    some (((project_cf_list inp).drop 1).sum / total_energy inp)
  else none

/-- Line 144: the cumulative equity cash flow through index `k` of
`equity_cf_list` (pandas `cumsum`). -/
def cum_cf (inp : Inputs) (k : ℕ) : ℚ :=
  ((equity_cf_list inp).take (k + 1)).sum

/-- Line 145: the payback year, the first index of the cumulative equity
cash-flow series that is ≥ 0, `None` if there is none. -/
def payback_years (inp : Inputs) : Option ℕ :=
  (List.range (inp.project_life + 1)).find? (fun i => decide (0 ≤ cum_cf inp i))

/-- Lines 185-189: the displayed loan-balance column, rebuilt from the
principal repayments with an explicit clamp at 0. -/
def loan_balances (inp : Inputs) : ℕ → ℚ
  | 0 => loan_amount inp
  | k + 1 => max (loan_balances inp k - principal inp (k + 1)) 0

/-! ### Concrete inputs used to evaluate the model -/

/-- A representative scenario: 1 MW, DC overload 1.2, CUF 17.5%, 25-year
life, 0.5% degradation, ₹5.5 crore/MW, no subsidy, 80% loan at 10% for
10 years, 5.28% depreciation, 18% tax, 14% ROE. -/
def baseInputs : Inputs :=
  { plant_capacity_mw := 1
    dc_overload_factor := 6/5
    cuf := 7/40
    project_life := 25
    degradation := 1/200
    capital_cost_per_mw := 55000000
    subsidy_amount_per_mw := 0
    tariff := 2
    om_cost_per_mw := 300000
    om_escalation := 1/20
    loan_percent := 80
    loan_interest_rate := 1/10
    loan_tenure := 10
    depreciation_rate := 33/625
    tax_rate := 9/50
    return_on_equity := 7/50 }

/-- A scenario whose subsidy exactly cancels the capital cost, so
`effective_capital_cost = 0`. -/
def zeroCapitalInputs : Inputs :=
  { baseInputs with
    dc_overload_factor := 1
    capital_cost_per_mw := 100
    subsidy_amount_per_mw := 100 }

/-! ### Theorems for the claims -/

/-- C1: the spec demands that a zero effective capital cost yield an
explicit undefined WACC while the remaining metrics are still computed;
the source divides by `effective_capital_cost` with no guard, so with the
raising semantics of Python division the computation faults
(ZeroDivisionError), modelled here as `waccChecked = none` at an input
with `effective_capital_cost = 0`. -/
theorem wacc_division_unguarded :
    effective_capital_cost zeroCapitalInputs = 0 ∧
      waccChecked zeroCapitalInputs = none := by
  have hecc : effective_capital_cost zeroCapitalInputs = 0 := by
    norm_num [effective_capital_cost, capital_cost, base_capital_cost,
      subsidy_amount, zeroCapitalInputs, baseInputs]
  exact ⟨hecc, by simp [waccChecked, pydiv, hecc]⟩

/-- C4: with a nonzero effective capital cost, the WACC is the after-tax
debt share plus the equity share, with `loan_amount` and `equity_amount`
derived from `loan_percent` exactly as the spec states. -/
theorem wacc_formula (inp : Inputs) (h : effective_capital_cost inp ≠ 0) :
    wacc inp =
      (loan_amount inp / effective_capital_cost inp) * inp.loan_interest_rate *
          (1 - inp.tax_rate) +
        (equity_amount inp / effective_capital_cost inp) * inp.return_on_equity ∧
    loan_amount inp = effective_capital_cost inp * (inp.loan_percent / 100) ∧
    equity_amount inp = effective_capital_cost inp - loan_amount inp :=
  ⟨rfl, rfl, rfl⟩

/-- C4 witness: the WACC decomposition at the representative scenario,
whose effective capital cost is nonzero. -/
theorem wacc_formula_witness :
    effective_capital_cost baseInputs ≠ 0 ∧
    (wacc baseInputs =
      (loan_amount baseInputs / effective_capital_cost baseInputs) *
          baseInputs.loan_interest_rate * (1 - baseInputs.tax_rate) +
        (equity_amount baseInputs / effective_capital_cost baseInputs) *
          baseInputs.return_on_equity ∧
    loan_amount baseInputs = effective_capital_cost baseInputs * (baseInputs.loan_percent / 100) ∧
    equity_amount baseInputs = effective_capital_cost baseInputs - loan_amount baseInputs) :=
  ⟨by norm_num [effective_capital_cost, capital_cost, base_capital_cost,
      subsidy_amount, baseInputs],
    wacc_formula baseInputs (by norm_num [effective_capital_cost, capital_cost,
      base_capital_cost, subsidy_amount, baseInputs])⟩

/-- C5: for every year 1..project_life the energy output is the year-1
energy `capacity × 1000 × 8760 × CUF × dc_overload` degraded
geometrically, and the O&M cost is the year-1 cost
`om_cost_per_mw × capacity` escalated geometrically. -/
theorem energy_om_closed_form (inp : Inputs) (k : ℕ)
    (h1 : 1 ≤ k) (h2 : k ≤ inp.project_life) :
    energy inp k =
      inp.plant_capacity_mw * 1000 * 8760 * inp.cuf * inp.dc_overload_factor *
        (1 - inp.degradation) ^ (k - 1) ∧
    om_cost inp k =
      inp.om_cost_per_mw * inp.plant_capacity_mw *
        (1 + inp.om_escalation) ^ (k - 1) :=
  ⟨rfl, rfl⟩

/-- C5 witness: the closed forms at year 3 of the representative scenario. -/
theorem energy_om_closed_form_witness :
    (1 ≤ 3 ∧ 3 ≤ baseInputs.project_life) ∧
    (energy baseInputs 3 =
      baseInputs.plant_capacity_mw * 1000 * 8760 * baseInputs.cuf *
        baseInputs.dc_overload_factor * (1 - baseInputs.degradation) ^ (3 - 1) ∧
    om_cost baseInputs 3 =
      baseInputs.om_cost_per_mw * baseInputs.plant_capacity_mw *
        (1 + baseInputs.om_escalation) ^ (3 - 1)) :=
  ⟨⟨by decide, by decide⟩, energy_om_closed_form baseInputs 3 (by decide) (by decide)⟩

/-- C7: the year-0 entries of the project and equity cash-flow lists are
the negated effective capital cost and equity outlay, and both lists have
`project_life + 1` entries (years 0..N). -/
theorem cf_lists_year0_and_length (inp : Inputs) :
    (project_cf_list inp).head? = some (-effective_capital_cost inp) ∧
    (equity_cf_list inp).head? = some (-equity_amount inp) ∧
    (project_cf_list inp).length = inp.project_life + 1 ∧
    (equity_cf_list inp).length = inp.project_life + 1 := by
  refine ⟨rfl, rfl, ?_, ?_⟩ <;> simp [project_cf_list, equity_cf_list]

/-- C8: with positive year-1 energy and degradation strictly between 0
and 1, the energy outputs over years 1..project_life strictly decrease;
with zero degradation every year equals year 1. -/
theorem energy_degradation_monotone (inp : Inputs) :
    (0 < energy inp 1 → 0 < inp.degradation → inp.degradation < 1 →
      ∀ k, 1 ≤ k → k < inp.project_life → energy inp (k + 1) < energy inp k) ∧
    (inp.degradation = 0 →
      ∀ k, 1 ≤ k → k ≤ inp.project_life → energy inp k = energy inp 1) := by
  constructor
  · intro hE hd0 hd1 k hk _
    have hE1 : 0 < energy_y1_kwh inp := by
      simpa [energy] using hE
    have hbase0 : (0 : ℚ) < 1 - inp.degradation := by linarith
    have hbase1 : 1 - inp.degradation < 1 := by linarith
    have hlt : (1 - inp.degradation) ^ ((k + 1) - 1) <
        (1 - inp.degradation) ^ (k - 1) := by
      apply pow_lt_pow_right_of_lt_one₀ hbase0 hbase1
      omega
    simpa [energy] using mul_lt_mul_of_pos_left hlt hE1
  · intro hd k _ _
    simp [energy, hd]

/-- C8 witness: at the representative scenario the year-2 energy is
strictly below the year-1 energy. -/
theorem energy_degradation_monotone_witness :
    (0 < energy baseInputs 1 ∧ 0 < baseInputs.degradation ∧
      baseInputs.degradation < 1 ∧ 1 ≤ 1 ∧ 1 < baseInputs.project_life) ∧
    energy baseInputs 2 < energy baseInputs 1 :=
  ⟨⟨by norm_num [energy, energy_y1_kwh, baseInputs], by norm_num [baseInputs],
      by norm_num [baseInputs], le_refl 1, by decide⟩,
    (energy_degradation_monotone baseInputs).1
      (by norm_num [energy, energy_y1_kwh, baseInputs]) (by norm_num [baseInputs])
      (by norm_num [baseInputs]) 1 (le_refl 1) (by decide)⟩

/-! ### The loan amortization schedule (C2) -/

/-- Each step of the loan recursion subtracts exactly that year's
principal repayment (which is 0 outside the amortization window). -/
lemma remaining_loan_succ (inp : Inputs) (k : ℕ) :
    remaining_loan inp (k + 1) = remaining_loan inp k - principal inp (k + 1) := by
  by_cases h : k + 1 ≤ inp.loan_tenure ∧ 0 < remaining_loan inp k
  · simp only [remaining_loan, principal, Nat.add_sub_cancel, if_pos h]
  · simp only [remaining_loan, principal, Nat.add_sub_cancel, if_neg h, sub_zero]

/-- With a positive loan, a positive rate and a positive tenure, the
balance after `k ≤ tenure` payments has the standard annuity closed form
`L (qⁿ - qᵏ) / (qⁿ - 1)` with `q = 1 + rate`. -/
lemma remaining_loan_closed_form (inp : Inputs)
    (hL : 0 < loan_amount inp) (hr : 0 < inp.loan_interest_rate)
    (hn : 0 < inp.loan_tenure) :
    ∀ k, k ≤ inp.loan_tenure →
      remaining_loan inp k =
        loan_amount inp *
          ((1 + inp.loan_interest_rate) ^ inp.loan_tenure -
            (1 + inp.loan_interest_rate) ^ k) /
          ((1 + inp.loan_interest_rate) ^ inp.loan_tenure - 1) := by
  set r := inp.loan_interest_rate with hrdef
  set n := inp.loan_tenure with hndef
  set L := loan_amount inp with hLdef
  have hq : 1 < 1 + r := by linarith
  have hqn : 1 < (1 + r) ^ n := one_lt_pow₀ hq (by omega)
  have hden : (0 : ℚ) < (1 + r) ^ n - 1 := by linarith
  intro k
  induction k with
  | zero =>
    intro _
    rw [pow_zero, remaining_loan, mul_div_assoc, div_self hden.ne', mul_one]
  | succ k ih =>
    intro hk1
    have hk : k < n := by omega
    have hbal := ih (le_of_lt hk)
    have hqk : (1 + r) ^ k < (1 + r) ^ n := pow_lt_pow_right₀ hq hk
    have hpos : 0 < remaining_loan inp k := by
      rw [hbal]
      exact div_pos (mul_pos hL (sub_pos.mpr hqk)) hden
    have hcond : k + 1 ≤ n ∧ 0 < remaining_loan inp k := ⟨hk1, hpos⟩
    have hpay : annual_payment inp =
        L * ((r * (1 + r) ^ n) / ((1 + r) ^ n - 1)) := by
      rw [annual_payment, if_pos ⟨hn, hr⟩]
    rw [remaining_loan]
    simp only [if_pos hcond]
    rw [hbal, hpay]
    field_simp
    ring

/-- The balance is exactly 0 at the end of the tenure. -/
lemma remaining_loan_at_tenure (inp : Inputs)
    (hL : 0 < loan_amount inp) (hr : 0 < inp.loan_interest_rate)
    (hn : 0 < inp.loan_tenure) :
    remaining_loan inp inp.loan_tenure = 0 := by
  rw [remaining_loan_closed_form inp hL hr hn inp.loan_tenure le_rfl, sub_self,
    mul_zero, zero_div]

/-- Once the tenure is over the balance stays 0. -/
lemma remaining_loan_zero_after (inp : Inputs)
    (hL : 0 < loan_amount inp) (hr : 0 < inp.loan_interest_rate)
    (hn : 0 < inp.loan_tenure) :
    ∀ k, inp.loan_tenure ≤ k → remaining_loan inp k = 0 := by
  intro k
  induction k with
  | zero => intro h; exact absurd h (by omega)
  | succ k ih =>
    intro hk
    rcases eq_or_lt_of_le hk with heq | hlt
    · rw [← heq]
      exact remaining_loan_at_tenure inp hL hr hn
    · have h0 := ih (by omega)
      simp [remaining_loan, h0]

/-- The balance is never negative. -/
lemma remaining_loan_nonneg (inp : Inputs)
    (hL : 0 < loan_amount inp) (hr : 0 < inp.loan_interest_rate)
    (hn : 0 < inp.loan_tenure) :
    ∀ k, 0 ≤ remaining_loan inp k := by
  intro k
  rcases le_or_lt k inp.loan_tenure with h | h
  · rw [remaining_loan_closed_form inp hL hr hn k h]
    have hq : (1 : ℚ) ≤ 1 + inp.loan_interest_rate := by linarith
    have hqn : 1 < (1 + inp.loan_interest_rate) ^ inp.loan_tenure :=
      one_lt_pow₀ (by linarith) (by omega)
    have hk : (1 + inp.loan_interest_rate) ^ k ≤
        (1 + inp.loan_interest_rate) ^ inp.loan_tenure := pow_le_pow_right₀ hq h
    apply div_nonneg (mul_nonneg hL.le (by linarith)) (by linarith)
  · rw [remaining_loan_zero_after inp hL hr hn k h.le]

/-- The balance sequence never increases. -/
lemma remaining_loan_antitone (inp : Inputs)
    (hL : 0 < loan_amount inp) (hr : 0 < inp.loan_interest_rate)
    (hn : 0 < inp.loan_tenure) :
    ∀ k, remaining_loan inp (k + 1) ≤ remaining_loan inp k := by
  intro k
  rcases le_or_lt (k + 1) inp.loan_tenure with h | h
  · rw [remaining_loan_closed_form inp hL hr hn (k + 1) h,
      remaining_loan_closed_form inp hL hr hn k (by omega)]
    have hq : (1 : ℚ) ≤ 1 + inp.loan_interest_rate := by linarith
    have hqn : 1 < (1 + inp.loan_interest_rate) ^ inp.loan_tenure :=
      one_lt_pow₀ (by linarith) (by omega)
    gcongr
    all_goals linarith
  · have hstep : remaining_loan inp (k + 1) = remaining_loan inp k := by
      simp [remaining_loan, Nat.not_le.mpr h]
    rw [hstep]

/-- Outside the amortization window the debt service is 0 (no hypotheses
needed: the guard `year ≤ loan_tenure` alone kills both entries). -/
lemma debt_service_zero_after (inp : Inputs) :
    ∀ k, inp.loan_tenure < k → interest inp k = 0 ∧ principal inp k = 0 := by
  intro k hk
  have hnot : ¬(k ≤ inp.loan_tenure ∧ 0 < remaining_loan inp (k - 1)) :=
    fun h => absurd h.1 (by omega)
  exact ⟨by rw [interest, if_neg hnot], by rw [principal, if_neg hnot]⟩

/-- The displayed, clamped balance column agrees with the loop state. -/
lemma loan_balances_eq_remaining (inp : Inputs)
    (hL : 0 < loan_amount inp) (hr : 0 < inp.loan_interest_rate)
    (hn : 0 < inp.loan_tenure) :
    ∀ k, loan_balances inp k = remaining_loan inp k := by
  intro k
  induction k with
  | zero => rfl
  | succ k ih =>
    rw [loan_balances, ih, ← remaining_loan_succ]
    exact max_eq_left (remaining_loan_nonneg inp hL hr hn (k + 1))

/-- C2: with a positive loan, rate and tenure, the balance sequence starts
at `loan_amount`, never increases, is exactly 0 at year `loan_tenure`,
interest and principal vanish in every later year, and the clamped
balance column of the output table coincides with the loop state. -/
theorem loan_amortization_schedule (inp : Inputs)
    (hL : 0 < loan_amount inp) (hr : 0 < inp.loan_interest_rate)
    (hn : 0 < inp.loan_tenure) :
    remaining_loan inp 0 = loan_amount inp ∧
    (∀ k, remaining_loan inp (k + 1) ≤ remaining_loan inp k) ∧
    remaining_loan inp inp.loan_tenure = 0 ∧
    (∀ k, inp.loan_tenure < k → interest inp k = 0 ∧ principal inp k = 0) ∧
    (∀ k, loan_balances inp k = remaining_loan inp k) :=
  ⟨rfl, remaining_loan_antitone inp hL hr hn,
    remaining_loan_at_tenure inp hL hr hn, debt_service_zero_after inp,
    loan_balances_eq_remaining inp hL hr hn⟩

/-- C2 witness: the representative scenario has a positive loan at 10%
over 10 years, so its amortization schedule has all the stated
properties. -/
theorem loan_amortization_schedule_witness :
    (0 < loan_amount baseInputs ∧ 0 < baseInputs.loan_interest_rate ∧
      0 < baseInputs.loan_tenure) ∧
    (remaining_loan baseInputs 0 = loan_amount baseInputs ∧
    (∀ k, remaining_loan baseInputs (k + 1) ≤ remaining_loan baseInputs k) ∧
    remaining_loan baseInputs baseInputs.loan_tenure = 0 ∧
    (∀ k, baseInputs.loan_tenure < k →
      interest baseInputs k = 0 ∧ principal baseInputs k = 0) ∧
    (∀ k, loan_balances baseInputs k = remaining_loan baseInputs k)) :=
  ⟨⟨by norm_num [loan_amount, effective_capital_cost, capital_cost,
      base_capital_cost, subsidy_amount, baseInputs],
    by norm_num [baseInputs], by decide⟩,
    loan_amortization_schedule baseInputs
      (by norm_num [loan_amount, effective_capital_cost, capital_cost,
        base_capital_cost, subsidy_amount, baseInputs])
      (by norm_num [baseInputs]) (by decide)⟩

/-! ### Zero tenure, zero rate, LCOE and payback (C3, C9, C6, C10) -/

/-- A scenario with no loan tenure but a nonzero loan share
(`loan_percent = 80`), effective capital cost 100. -/
def noTenureInputs : Inputs :=
  { baseInputs with
    dc_overload_factor := 1
    capital_cost_per_mw := 100
    loan_tenure := 0 }

/-- C3 counterexample: with `loan_tenure = 0` but a nonzero loan share the
year-0 entries differ — the equity outlay is `-equity_amount = -20` while
the project outlay is `-effective_capital_cost = -100` — so the claimed
"equity_cf[year] == project_cf[year] for all years 0..project_life" fails
at year 0. -/
theorem tenure_zero_year0_counterexample :
    noTenureInputs.loan_tenure = 0 ∧
      (equity_cf_list noTenureInputs).head? ≠ (project_cf_list noTenureInputs).head? := by
  refine ⟨rfl, ?_⟩
  simp only [equity_cf_list, project_cf_list, List.head?_cons, ne_eq,
    Option.some.injEq, neg_inj]
  norm_num [equity_amount, loan_amount, effective_capital_cost, capital_cost,
    base_capital_cost, subsidy_amount, noTenureInputs, baseInputs]

/-- C3 (amended): with `loan_tenure = 0` every year's interest and
principal are 0, and the equity cash flow equals the project cash flow in
every operating year 1..project_life; the year-0 entries are
`-equity_amount` and `-effective_capital_cost` respectively (these differ
by the loan amount, which need not be 0). -/
theorem tenure_zero_no_debt_service (inp : Inputs) (h : inp.loan_tenure = 0) :
    (∀ k, 1 ≤ k → interest inp k = 0 ∧ principal inp k = 0) ∧
    (∀ k, 1 ≤ k → k ≤ inp.project_life → equity_cf inp k = project_cf inp k) ∧
    (equity_cf_list inp).head? = some (-equity_amount inp) ∧
    (project_cf_list inp).head? = some (-effective_capital_cost inp) := by
  have hzero : ∀ k, 1 ≤ k → interest inp k = 0 ∧ principal inp k = 0 :=
    fun k hk => debt_service_zero_after inp k (by omega)
  refine ⟨hzero, ?_, rfl, rfl⟩
  intro k hk _
  rw [equity_cf, (hzero k hk).1, (hzero k hk).2, sub_zero, sub_zero]

/-- C3 witness: the no-tenure scenario satisfies the amended claim. -/
theorem tenure_zero_no_debt_service_witness :
    noTenureInputs.loan_tenure = 0 ∧
    ((∀ k, 1 ≤ k →
        interest noTenureInputs k = 0 ∧ principal noTenureInputs k = 0) ∧
    (∀ k, 1 ≤ k → k ≤ noTenureInputs.project_life →
        equity_cf noTenureInputs k = project_cf noTenureInputs k) ∧
    (equity_cf_list noTenureInputs).head? = some (-equity_amount noTenureInputs) ∧
    (project_cf_list noTenureInputs).head? =
      some (-effective_capital_cost noTenureInputs)) :=
  ⟨rfl, tenure_zero_no_debt_service noTenureInputs rfl⟩

/-- The representative scenario with the interest rate forced to 0. -/
def zeroRateInputs : Inputs :=
  { baseInputs with loan_interest_rate := 0 }

/-- C9: with a zero interest rate (and positive tenure and loan) the
annuity guard fails, so the annual payment is 0, the balance never moves
from `loan_amount` — the loan is never amortized — every year's interest
and principal are 0, and the equity cash flow equals the project cash
flow in every operating year. -/
theorem zero_rate_no_amortization (inp : Inputs)
    (hr : inp.loan_interest_rate = 0) (hn : 0 < inp.loan_tenure)
    (hL : 0 < loan_amount inp) :
    annual_payment inp = 0 ∧
    (∀ k, remaining_loan inp k = loan_amount inp) ∧
    (∀ k, 1 ≤ k → interest inp k = 0 ∧ principal inp k = 0) ∧
    (∀ k, 1 ≤ k → equity_cf inp k = project_cf inp k) := by
  have hpay : annual_payment inp = 0 := by
    simp [annual_payment, hr]
  have hbal : ∀ k, remaining_loan inp k = loan_amount inp := by
    intro k
    induction k with
    | zero => rfl
    | succ k ih => simp [remaining_loan, hpay, hr, ih]
  have hzero : ∀ k, 1 ≤ k → interest inp k = 0 ∧ principal inp k = 0 := by
    intro k _
    constructor
    · simp [interest, hr]
    · simp [principal, hr, hpay]
  refine ⟨hpay, hbal, hzero, ?_⟩
  intro k hk
  rw [equity_cf, (hzero k hk).1, (hzero k hk).2, sub_zero, sub_zero]

/-- C9 witness: the zero-rate scenario has positive tenure and loan, so
the loan is never amortized there. -/
theorem zero_rate_no_amortization_witness :
    (zeroRateInputs.loan_interest_rate = 0 ∧ 0 < zeroRateInputs.loan_tenure ∧
      0 < loan_amount zeroRateInputs) ∧
    (annual_payment zeroRateInputs = 0 ∧
    (∀ k, remaining_loan zeroRateInputs k = loan_amount zeroRateInputs) ∧
    (∀ k, 1 ≤ k →
      interest zeroRateInputs k = 0 ∧ principal zeroRateInputs k = 0) ∧
    (∀ k, 1 ≤ k → equity_cf zeroRateInputs k = project_cf zeroRateInputs k)) :=
  ⟨⟨rfl, by decide,
    by norm_num [loan_amount, effective_capital_cost, capital_cost,
      base_capital_cost, subsidy_amount, zeroRateInputs, baseInputs]⟩,
    zero_rate_no_amortization zeroRateInputs rfl (by decide)
      (by norm_num [loan_amount, effective_capital_cost, capital_cost,
        base_capital_cost, subsidy_amount, zeroRateInputs, baseInputs])⟩

/-- A list built by mapping over `List.range` sums like the corresponding
finite sum. -/
lemma list_range_map_sum (f : ℕ → ℚ) (n : ℕ) :
    ((List.range n).map f).sum = ∑ i ∈ Finset.range n, f i := by
  induction n with
  | zero => simp
  | succ n ih =>
    rw [List.range_succ, List.map_append, List.sum_append, Finset.sum_range_succ, ih]
    simp

/-- C6: when the total generated energy is 0 the LCOE is the explicit
`none` sentinel — the guard `total_nominal_energy > 0` prevents a
division fault — and when the total energy is positive the LCOE is the
nominal (undiscounted) ratio of the summed year-1..N project cash flows
to the summed year-1..N energy. -/
theorem lcoe_guarded (inp : Inputs) :
    (total_energy inp = 0 → lcoe inp = none) ∧
    (0 < total_energy inp →
      lcoe inp = some
        ((∑ i ∈ Finset.range inp.project_life, project_cf inp (i + 1)) /
          (∑ i ∈ Finset.range inp.project_life, energy inp (i + 1)))) := by
  constructor
  · intro h
    rw [lcoe, if_neg]
    rw [h]
    exact lt_irrefl 0
  · intro h
    have h1 : ((project_cf_list inp).drop 1).sum =
        ∑ i ∈ Finset.range inp.project_life, project_cf inp (i + 1) := by
      rw [project_cf_list, List.drop_succ_cons, List.drop_zero,
        list_range_map_sum]
    have h2 : total_energy inp =
        ∑ i ∈ Finset.range inp.project_life, energy inp (i + 1) := by
      rw [total_energy, energy_outputs, list_range_map_sum]
    rw [lcoe, if_pos h, h1, h2]

/-- The representative scenario with the CUF forced to 0, so no energy is
ever generated. -/
def zeroCufInputs : Inputs :=
  { baseInputs with cuf := 0 }

/-- C6 witness: at zero CUF the total energy is 0 and the LCOE is the
`none` sentinel; at the representative scenario the total energy is
positive and the LCOE is the nominal ratio. -/
theorem lcoe_guarded_witness :
    (total_energy zeroCufInputs = 0 ∧ lcoe zeroCufInputs = none) ∧
    (0 < total_energy baseInputs ∧
      lcoe baseInputs = some
        ((∑ i ∈ Finset.range baseInputs.project_life, project_cf baseInputs (i + 1)) /
          (∑ i ∈ Finset.range baseInputs.project_life, energy baseInputs (i + 1)))) := by
  have hz : total_energy zeroCufInputs = 0 := by
    rw [total_energy, energy_outputs, list_range_map_sum]
    apply Finset.sum_eq_zero
    intro i _
    norm_num [energy, energy_y1_kwh, zeroCufInputs, baseInputs]
  have hpos : 0 < total_energy baseInputs := by
    rw [total_energy, energy_outputs, list_range_map_sum]
    apply Finset.sum_pos
    · intro i _
      rw [energy]
      apply mul_pos
      · norm_num [energy_y1_kwh, baseInputs]
      · apply pow_pos
        norm_num [baseInputs]
    · exact ⟨0, Finset.mem_range.mpr (by decide)⟩
  exact ⟨⟨hz, (lcoe_guarded zeroCufInputs).1 hz⟩,
    ⟨hpos, (lcoe_guarded baseInputs).2 hpos⟩⟩

/-- C10: the payback search returns the smallest index (0-based, over
years 0..project_life) whose cumulative undiscounted equity cash flow is
≥ 0, with `none` exactly when no index within the horizon qualifies; with
a 100% loan share the equity outlay is 0, so the year-0 cumulative equity
cash flow is 0 and the payback year is 0. -/
theorem payback_full_debt (inp : Inputs) :
    (inp.loan_percent = 100 →
      equity_amount inp = 0 ∧ payback_years inp = some 0) ∧
    (payback_years inp = none ↔
      ∀ i, i ≤ inp.project_life → cum_cf inp i < 0) := by
  constructor
  · intro h
    have heq : equity_amount inp = 0 := by
      rw [equity_amount, loan_amount, h]
      norm_num
    have hcum0 : cum_cf inp 0 = 0 := by
      simp [cum_cf, equity_cf_list, heq]
    refine ⟨heq, ?_⟩
    rw [payback_years, List.range_succ_eq_map,
      List.find?_cons_of_pos _ (by simp [hcum0])]
  · rw [payback_years, List.find?_eq_none]
    simp only [List.mem_range, decide_eq_true_eq, not_le]
    exact ⟨fun h i hi => h i (by omega), fun h i hi => h i (by omega)⟩

/-- The representative scenario financed entirely by debt. -/
def fullDebtInputs : Inputs :=
  { baseInputs with loan_percent := 100 }

/-- C10 witness: at a 100% loan share the equity outlay is 0 and the
payback year is 0. -/
theorem payback_full_debt_witness :
    fullDebtInputs.loan_percent = 100 ∧
    (equity_amount fullDebtInputs = 0 ∧ payback_years fullDebtInputs = some 0) :=
  ⟨rfl, (payback_full_debt fullDebtInputs).1 rfl⟩
